import Mathlib

/-!
Verification development for the Vast.ai data-collection script
(collect_data.py).  The script fetches GPU rental offers over HTTP,
projects each raw offer dictionary onto a fixed record schema, appends
the batch to a JSON dataset file, and reports per-GPU summary
statistics.  Everything below is a shallow embedding of that script:
JSON scalar values become an inductive type, Python dictionaries become
association lists, the system clock becomes an explicit stream of
timestamps, and the dataset file becomes an explicit optional value
threaded through save/load.
-/

namespace VastCollect

/-- JSON scalar value as stored in an offer dictionary or a record
field.  Python None maps to null; numbers are modelled as exact
rationals (the script only moves them between JSON documents, and the
claims under study do not depend on binary floating-point artifacts). -/
inductive JValue where
  | null : JValue
  | bool : Bool → JValue
  | num : Rat → JValue
  | str : String → JValue
deriving DecidableEq

/-- Raw offer as returned by the API: a key-value map with scalar
values, modelled as an association list with unique keys in practice. -/
abbrev Listing : Type := List (String × JValue)

/-- First-match association-list lookup; on a map with unique keys this
is Python dictionary lookup. -/
def alookup {α β : Type} [DecidableEq α] : List (α × β) → α → Option β
  | [], _ => none
  | (k, v) :: rest, key => if k = key then some v else alookup rest key

/-- Python offer.get(k): the stored value when the key is present
(possibly None = null), null when the key is absent. -/
def dget (o : Listing) (k : String) : JValue :=
  (alookup o k).getD JValue.null

/-- Python offer.get(k, d): the stored value when the key is present,
the default d when the key is absent. -/
def dgetD (o : Listing) (k : String) (d : JValue) : JValue :=
  (alookup o k).getD d

/-- Observation instant, the slice of a Python datetime value that
process_offer reads: isoformat(), strftime of the date, hour, and
weekday() with 0 = Monday. -/
structure DateTime where
  iso : String
  dateStr : String
  hour : Nat
  weekday : Nat
deriving DecidableEq

/-- Processed record: the exact dictionary built by process_offer in
collect_data.py, one named field per key, in source order.  Every
API-derived field holds a JSON scalar (null when the source key is
absent and no other default is coded). -/
structure Record where
  timestamp : String
  date : String
  hour : Nat
  day_of_week : Nat
  is_weekend : Bool
  gpu_name : JValue
  num_gpus : JValue
  gpu_ram : JValue
  gpu_total_ram : JValue
  total_flops : JValue
  dlperf : JValue
  dlperf_per_dphtotal : JValue
  machine_id : JValue
  host_id : JValue
  reliability : JValue
  geolocation : JValue
  datacenter : JValue
  verified : JValue
  inet_down : JValue
  inet_up : JValue
  static_ip : JValue
  direct_port_count : JValue
  cpu_cores : JValue
  cpu_ghz : JValue
  cpu_name : JValue
  disk_space : JValue
  disk_bw : JValue
  dph_total : JValue
  dph_base : JValue
  storage_cost : JValue
  inet_up_cost : JValue
  inet_down_cost : JValue
  rented : JValue
  num_renting : JValue
  duration : JValue
  min_bid : JValue
  cuda_max_good : JValue
  compute_cap : JValue
  pci_gen : JValue
  pcie_bw : JValue
deriving DecidableEq

/-- Projection of one raw offer onto the record schema
(process_offer, collect_data.py lines 91-161).  The source calls
datetime.now() at the top of the function body, once per call; that
instant is passed here as the explicit argument now. -/
def process_offer (now : DateTime) (offer : Listing) : Record :=
  { timestamp := now.iso
    date := now.dateStr
    hour := now.hour
    day_of_week := now.weekday
    is_weekend := decide (5 ≤ now.weekday)
    gpu_name := dget offer "gpu_name"
    num_gpus := dget offer "num_gpus"
    gpu_ram := dget offer "gpu_ram"
    gpu_total_ram := dget offer "gpu_totalram"
    total_flops := dget offer "total_flops"
    dlperf := dget offer "dlperf"
    dlperf_per_dphtotal := dget offer "dlperf_per_dphtotal"
    machine_id := dget offer "machine_id"
    host_id := dget offer "host_id"
    reliability := dgetD offer "reliability2" (dget offer "reliability")
    geolocation := dget offer "geolocation"
    datacenter := dgetD offer "datacenter" (JValue.bool false)
    verified := dgetD offer "verified" (JValue.bool false)
    inet_down := dget offer "inet_down"
    inet_up := dget offer "inet_up"
    static_ip := dgetD offer "static_ip" (JValue.bool false)
    direct_port_count := dget offer "direct_port_count"
    cpu_cores := dget offer "cpu_cores"
    cpu_ghz := dget offer "cpu_ghz"
    cpu_name := dget offer "cpu_name"
    disk_space := dget offer "disk_space"
    disk_bw := dget offer "disk_bw"
    dph_total := dget offer "dph_total"
    dph_base := dget offer "dph_base"
    storage_cost := dget offer "storage_cost"
    inet_up_cost := dget offer "inet_up_cost"
    inet_down_cost := dget offer "inet_down_cost"
    rented := dgetD offer "rented" (JValue.bool false)
    num_renting := dgetD offer "num_renting" (JValue.num 0)
    duration := dget offer "duration"
    min_bid := dget offer "min_bid"
    cuda_max_good := dget offer "cuda_max_good"
    compute_cap := dget offer "compute_cap"
    pci_gen := dget offer "pci_gen"
    pcie_bw := dget offer "pcie_bw" }

/-- Processing loop of collect_data (lines 176-183): each offer is
projected with its own datetime.now() call; the clock argument gives
the instant observed by the i-th call, in call order.  The per-offer
try/except never fires in this model because process_offer is total on
well-formed key-value listings. -/
def collect_data (clock : Nat → DateTime) (offers : List Listing) : List Record :=
  offers.mapIdx fun i o => process_offer (clock i) o

/-- Python truthiness for the JSON scalars a record can hold, as used
by the source in if r.get("rented"): and if r.get("dph_total"): —
null, false, 0, and the empty string are falsy. -/
def truthy : JValue → Bool
  | .null => false
  | .bool b => b
  | .num q => decide (q ≠ 0)
  | .str s => decide (s ≠ "")

/-- Numeric value of a price field.  The script only ever appends and
sorts JSON numbers here; a non-numeric truthy price would make
Python's sorted/min raise and lies outside the modelled domain. -/
def toRat : JValue → Rat
  | .num q => q
  | _ => 0

/-- Counter update: counts.get(key, 0) + 1 stored back under key,
preserving dictionary insertion order (new keys go to the end). -/
def bump : List (JValue × Nat) → JValue → List (JValue × Nat)
  | [], key => [(key, 1)]
  | (k, v) :: rest, key =>
      if k = key then (k, v + 1) :: rest else (k, v) :: bump rest key

/-- Implements if gpu not in price_by_gpu: price_by_gpu[gpu] = []
(dictionary insertion order preserved). -/
def ensureKey (m : List (JValue × List Rat)) (key : JValue) :
    List (JValue × List Rat) :=
  if (alookup m key).isSome then m else m ++ [(key, [])]

/-- Implements price_by_gpu[gpu].append(q); the key is always present
when the source reaches this statement (ensureKey ran first). -/
def appendAt : List (JValue × List Rat) → JValue → Rat → List (JValue × List Rat)
  | [], _, _ => []
  | (k, v) :: rest, key, q =>
      if k = key then (k, v ++ [q]) :: rest
      else (k, v) :: appendAt rest key q

/-- Accumulator of the per-record loop in get_summary_stats
(lines 216-230): three dictionaries keyed by GPU name. -/
structure Tally where
  gpu_counts : List (JValue × Nat)
  rented_counts : List (JValue × Nat)
  price_by_gpu : List (JValue × List Rat)
deriving DecidableEq

/-- Body of the loop over the latest batch (lines 220-230).  The key
r.get("gpu_name", "Unknown") is r.gpu_name here: records produced by
process_offer always carry the key (possibly null). -/
def tallyStep (t : Tally) (r : Record) : Tally :=
  let gpu := r.gpu_name
  { gpu_counts := bump t.gpu_counts gpu
    rented_counts :=
      if truthy r.rented then bump t.rented_counts gpu else t.rented_counts
    price_by_gpu :=
      let m := ensureKey t.price_by_gpu gpu
      if truthy r.dph_total then appendAt m gpu (toRat r.dph_total) else m }

/-- Whole counting loop of get_summary_stats over the latest batch. -/
def tally (batch : List Record) : Tally :=
  batch.foldl tallyStep ⟨[], [], []⟩

/-- Ascending sort, Python sorted(prices). -/
def sortRat (l : List Rat) : List Rat :=
  l.insertionSort (· ≤ ·)

/-- Nearest integer with ties to the even integer: the rounding mode of
Python's round builtin, taken on the exact rational value (binary
floating-point representation artifacts are out of scope).  With
n = floor q and r = q.num mod q.den, the fractional part of q is
r / q.den, so frac < 1/2 is 2r < den and frac > 1/2 is den < 2r. -/
def roundHalfEven (q : Rat) : Int :=
  let n : Int := q.num / (q.den : Int)
  let r : Int := q.num % (q.den : Int)
  if 2 * r < (q.den : Int) then n
  else if (q.den : Int) < 2 * r then n + 1
  else if n % 2 = 0 then n else n + 1

/-- Python round(q, ndigits) on exact rationals: round half to even at
the ndigits-th decimal.  Stated on numerator and denominator so that
it evaluates by kernel reduction; q.num * 10^ndigits / q.den is
q * 10^ndigits. -/
def pyRound (ndigits : Nat) (q : Rat) : Rat :=
  Rat.divInt (roundHalfEven (Rat.divInt (q.num * 10 ^ ndigits) (q.den : Int)))
    (10 ^ ndigits)

/-- Python min of a list, none on the empty list. -/
def listMin : List Rat → Option Rat
  | [] => none
  | q :: qs => some (qs.foldl min q)

/-- Python max of a list, none on the empty list. -/
def listMax : List Rat → Option Rat
  | [] => none
  | q :: qs => some (qs.foldl max q)

/-- Per-GPU aggregate row of the summary (lines 239-247). -/
structure GpuStats where
  total : Nat
  rented : Nat
  available : Int
  rental_rate : Rat
  price_min : Option Rat
  price_median : Option Rat
  price_max : Option Rat
deriving DecidableEq

/-- Stats row built from the counters of one GPU category, mirroring
the dictionary literal at lines 239-247: rented = rented_counts.get
(gpu, 0), total = gpu_counts[gpu], raw = price_by_gpu.get(gpu, []),
prices = sorted(raw). -/
def mkStats (rented total : Nat) (raw : List Rat) : GpuStats :=
  let prices := sortRat raw
  { total := total
    rented := rented
    available := (total : Int) - (rented : Int)
    rental_rate :=
      if 0 < total then pyRound 1 (Rat.divInt ((rented : Int) * 100) (total : Int))
      else 0
    price_min := (listMin prices).map (pyRound 3)
    price_median := (prices.get? (prices.length / 2)).map (pyRound 3)
    price_max := (listMax prices).map (pyRound 3) }

/-- Latest batch of a non-empty dataset: all records whose timestamp
equals the last record's timestamp (lines 212-213). -/
def latest_batch (records : List Record) (h : records ≠ []) : List Record :=
  records.filter fun r => r.timestamp = (records.getLast h).timestamp

/-- Summary statistics (get_summary_stats, lines 206-249): empty
mapping on an empty dataset, otherwise one aggregate row per GPU name
of the latest batch, in first-seen order.  The last-record access that
identifies the latest batch lives in the cons branch only, under a
proof that the list is non-empty. -/
def get_summary_stats (records : List Record) : List (JValue × GpuStats) :=
  match records with
  | [] => []
  | r :: rs =>
      let t := tally (latest_batch (r :: rs) (List.cons_ne_nil r rs))
      t.gpu_counts.map fun p =>
        (p.1, mkStats ((alookup t.rented_counts p.1).getD 0) p.2
          ((alookup t.price_by_gpu p.1).getD []))

/-- Price list over which one category's min/median/max are computed:
the price_by_gpu entry for that category in the latest batch. -/
def categoryPrices (records : List Record) (g : JValue) : List Rat :=
  match records with
  | [] => []
  | r :: rs =>
      (alookup (tally (latest_batch (r :: rs) (List.cons_ne_nil r rs))).price_by_gpu
        g).getD []

/-- Dataset file state: none when data/vast_historical_data.json does
not exist, otherwise the parsed JSON content (an array of records).
The standard json.dump/json.load pair is an inverse on this schema, so
the file is modelled by the JSON value it holds. -/
abbrev FS : Type := Option (List Record)

/-- save_data (lines 196-203): rewrite the dataset file in full with
the given record list, whatever the file held before. -/
def save_data (records : List Record) (_fs : FS) : FS :=
  some records

/-- load_existing_data (lines 188-193): parsed file content when the
file exists, the empty list when it does not. -/
def load_existing_data (fs : FS) : List Record :=
  fs.getD []

/-- Persistence slice of main (lines 283-297): when the new batch is
empty, return early without writing; otherwise load the existing
records, append the new batch, and save the whole sequence. -/
def run_append (fs : FS) (new_records : List Record) : FS :=
  if new_records.isEmpty then fs
  else save_data (load_existing_data fs ++ new_records) fs

/-- Slice of an HTTP response read by fetch_vast_offers: the status
code, the body text, and the offers field of the parsed JSON body
(none when the key is absent). -/
structure HttpResponse where
  status_code : Nat
  text : String
  offers : Option (List Listing)
deriving DecidableEq

/-- Error raised on a non-200 response, carrying the HTTP status code
and the response body (line 82). -/
structure ApiError where
  status : Nat
  body : String
deriving DecidableEq

/-- fetch_vast_offers (lines 79-88) applied to the response of its one
POST request: raise ApiError unless the status is exactly 200,
otherwise return data.get("offers", []). -/
def fetch_vast_offers (resp : HttpResponse) : Except ApiError (List Listing) :=
  if resp.status_code ≠ 200 then Except.error ⟨resp.status_code, resp.text⟩
  else Except.ok (resp.offers.getD [])

/-- Success class of HTTP status codes, modelled from the claim's
words: the 2xx range that the HTTP specification calls successful. -/
def isHttpSuccess (s : Nat) : Bool :=
  decide (200 ≤ s) && decide (s < 300)

/-- Counters of the run that get_summary_stats aggregates: the tally
of the latest batch, or empty counters on an empty dataset (where the
aggregation loop is never reached). -/
def tallyOf (records : List Record) : Tally :=
  match records with
  | [] => ⟨[], [], []⟩
  | r :: rs => tally (latest_batch (r :: rs) (List.cons_ne_nil r rs))

/-- Price contributed by one record of the latest batch to category g:
its dph_total value when the record belongs to g and that value is
truthy, nothing otherwise. -/
def priceContrib (g : JValue) (r : Record) : Option Rat :=
  if r.gpu_name = g ∧ truthy r.dph_total then some (toRat r.dph_total) else none

/-! Concrete fixtures used by counterexamples and witnesses. -/

/-- Observation instant of a first process_offer call. -/
def dt0 : DateTime := ⟨"2025-01-01T12:00:00", "2025-01-01", 12, 2⟩

/-- Observation instant of a second process_offer call in the same
run, a few microseconds later (isoformat strings differ). -/
def dt1 : DateTime := ⟨"2025-01-01T12:00:00.000123", "2025-01-01", 12, 2⟩

/-- System clock of one run: the first process_offer call reads dt0,
every later call reads dt1. -/
def clock01 : Nat → DateTime := fun i => if i = 0 then dt0 else dt1

/-- Offer for an RTX-class GPU listed at q dollars per hour. -/
def offerP (q : Rat) : Listing :=
  [("gpu_name", JValue.str "RTX"), ("dph_total", JValue.num q)]

/-- Batch of four records of one category priced 10, 20, 30, 40, all
sharing one observation timestamp. -/
def records4 : List Record :=
  [process_offer dt0 (offerP 10), process_offer dt0 (offerP 20),
   process_offer dt0 (offerP 30), process_offer dt0 (offerP 40)]

/-- Record whose hourly price is present and equal to 0. -/
def recZero : Record :=
  process_offer dt0 [("gpu_name", JValue.str "A"), ("dph_total", JValue.num 0)]

/-- Record with a GPU name and no price field. -/
def recA : Record :=
  process_offer dt0 [("gpu_name", JValue.str "A")]

/-! Helper lemmas about the association-list counters. -/

theorem alookup_append_nil_entry (m : List (JValue × List Rat)) (k g : JValue) :
    (alookup (m ++ [(k, [])]) g).getD [] = (alookup m g).getD [] := by
  induction m with
  | nil => by_cases hg : k = g <;> simp [alookup, hg]
  | cons hd rest ih =>
      obtain ⟨k', v⟩ := hd
      by_cases h : k' = g <;> simp [alookup, h, ih]

theorem alookup_ensureKey (m : List (JValue × List Rat)) (k g : JValue) :
    (alookup (ensureKey m k) g).getD [] = (alookup m g).getD [] := by
  unfold ensureKey
  split
  · rfl
  · exact alookup_append_nil_entry m k g

theorem alookup_appendAt_ensureKey (m : List (JValue × List Rat)) (k g : JValue) (q : Rat) :
    (alookup (appendAt (ensureKey m k) k q) g).getD []
      = if g = k then (alookup m g).getD [] ++ [q] else (alookup m g).getD [] := by
  induction m with
  | nil =>
      by_cases hg : g = k
      · subst hg; simp [ensureKey, alookup, appendAt]
      · simp [ensureKey, alookup, appendAt, hg, Ne.symm hg]
  | cons hd rest ih =>
      obtain ⟨k', v⟩ := hd
      by_cases hk : k' = k
      · subst hk
        by_cases hg : g = k'
        · subst hg; simp [ensureKey, alookup, appendAt]
        · simp [ensureKey, alookup, appendAt, hg, Ne.symm hg]
      · have he : ensureKey ((k', v) :: rest) k = (k', v) :: ensureKey rest k := by
          simp only [ensureKey, alookup, if_neg hk]
          split <;> simp
        rw [he]
        by_cases hg : g = k'
        · subst hg
          simp [appendAt, hk, alookup, Ne.symm hk]
        · simp [appendAt, hk, alookup, Ne.symm hg, ih]

theorem foldl_price_by_gpu (batch : List Record) (t : Tally) (g : JValue) :
    (alookup (batch.foldl tallyStep t).price_by_gpu g).getD []
      = (alookup t.price_by_gpu g).getD [] ++ batch.filterMap (priceContrib g) := by
  induction batch generalizing t with
  | nil => simp
  | cons r rs ih =>
      rw [List.foldl_cons, ih]
      by_cases ht : truthy r.dph_total
      · have h1 : (alookup (tallyStep t r).price_by_gpu g).getD []
            = if g = r.gpu_name
              then (alookup t.price_by_gpu g).getD [] ++ [toRat r.dph_total]
              else (alookup t.price_by_gpu g).getD [] := by
          simp [tallyStep, ht, alookup_appendAt_ensureKey]
        rw [h1]
        by_cases hg : r.gpu_name = g
        · simp [priceContrib, hg, ht, List.filterMap_cons]
        · simp [priceContrib, hg, ht, List.filterMap_cons, Ne.symm hg]
      · have h1 : (alookup (tallyStep t r).price_by_gpu g).getD []
            = (alookup t.price_by_gpu g).getD [] := by
          simp [tallyStep, ht, alookup_ensureKey]
        rw [h1]
        simp [priceContrib, ht, List.filterMap_cons]

theorem get_summary_stats_eq (records : List Record) :
    get_summary_stats records
      = (tallyOf records).gpu_counts.map (fun p =>
          (p.1, mkStats ((alookup (tallyOf records).rented_counts p.1).getD 0) p.2
            ((alookup (tallyOf records).price_by_gpu p.1).getD []))) := by
  cases records <;> rfl

theorem categoryPrices_eq (records : List Record) (g : JValue) :
    categoryPrices records g = (alookup (tallyOf records).price_by_gpu g).getD [] := by
  cases records <;> rfl

theorem categoryPrices_filterMap (records : List Record) (h : records ≠ []) (g : JValue) :
    categoryPrices records g = (latest_batch records h).filterMap (priceContrib g) := by
  cases records with
  | nil => exact absurd rfl h
  | cons r rs =>
      have := foldl_price_by_gpu (latest_batch (r :: rs) (List.cons_ne_nil r rs)) ⟨[], [], []⟩ g
      simpa [categoryPrices, tally, alookup] using this

theorem stats_mem (records : List Record) (g : JValue) (st : GpuStats)
    (hm : (g, st) ∈ get_summary_stats records) :
    ∃ c : Nat, st = mkStats ((alookup (tallyOf records).rented_counts g).getD 0) c
      ((alookup (tallyOf records).price_by_gpu g).getD []) := by
  rw [get_summary_stats_eq] at hm
  obtain ⟨p, _, he⟩ := List.mem_map.mp hm
  cases he
  exact ⟨p.2, rfl⟩

theorem mkStats_total (rented total : Nat) (raw : List Rat) :
    (mkStats rented total raw).total = total := rfl

theorem mkStats_rented (rented total : Nat) (raw : List Rat) :
    (mkStats rented total raw).rented = rented := rfl

theorem mkStats_rate (rented total : Nat) (raw : List Rat) :
    (mkStats rented total raw).rental_rate
      = if 0 < total then pyRound 1 (Rat.divInt ((rented : Int) * 100) (total : Int))
        else 0 := rfl

theorem mkStats_price_min (rented total : Nat) (raw : List Rat) :
    (mkStats rented total raw).price_min
      = (listMin (sortRat raw)).map (pyRound 3) := rfl

theorem mkStats_price_median (rented total : Nat) (raw : List Rat) :
    (mkStats rented total raw).price_median
      = ((sortRat raw).get? ((sortRat raw).length / 2)).map (pyRound 3) := rfl

theorem mkStats_price_max (rented total : Nat) (raw : List Rat) :
    (mkStats rented total raw).price_max
      = (listMax (sortRat raw)).map (pyRound 3) := rfl

theorem divInt_mul_hundred (r t : Nat) :
    Rat.divInt ((r : Int) * 100) (t : Int) = (r : Rat) / (t : Rat) * 100 := by
  rw [Rat.divInt_eq_div]
  push_cast
  ring

/-! Claim theorems. -/

/-- Claim C1, counterexample to the claim as stated: for the price
list [10, 20, 30, 40] in one category, the reported median is not 20 —
evaluating the reporter on a four-record batch of one category priced
10, 20, 30, 40 yields median 30, the element at index
floor(4/2) = 2 of the ascending-sorted list. -/
theorem median_of_four_prices_is_30 :
    (get_summary_stats records4).map (fun p => p.2.price_median) ≠ [some 20] ∧
    (get_summary_stats records4).map (fun p => p.2.price_median) = [some 30] := by
  decide

/-- Claim C1 (amended): the median a category reports is the element
at index floor(n/2) of the ascending-sorted list of the category's
collected prices — the upper-median for even-sized sets (30 for
[10, 20, 30, 40]), never an average of the two middle elements. -/
theorem price_median_is_sorted_middle_index (records : List Record) (g : JValue)
    (st : GpuStats) (hm : (g, st) ∈ get_summary_stats records) :
    List.Sorted (· ≤ ·) (sortRat (categoryPrices records g)) ∧
    (sortRat (categoryPrices records g)).Perm (categoryPrices records g) ∧
    st.price_median
      = ((sortRat (categoryPrices records g)).get?
          ((sortRat (categoryPrices records g)).length / 2)).map (pyRound 3) := by
  obtain ⟨c, rfl⟩ := stats_mem records g st hm
  refine ⟨List.sorted_insertionSort _ _, List.perm_insertionSort _ _, ?_⟩
  rw [categoryPrices_eq, mkStats_price_median]

/-- Claim C1 witness: the amended median property instantiated on the
concrete four-price batch. -/
theorem price_median_is_sorted_middle_index_witness :
    (mkStats 0 4 [10, 20, 30, 40]).price_median
      = ((sortRat (categoryPrices records4 (JValue.str "RTX"))).get?
          ((sortRat (categoryPrices records4 (JValue.str "RTX"))).length / 2)).map
          (pyRound 3) :=
  (price_median_is_sorted_middle_index records4 (JValue.str "RTX")
    (mkStats 0 4 [10, 20, 30, 40]) (by decide)).2.2

/-- Claim C2: the source computes datetime.now() inside process_offer,
once per listing, not once per batch — a run of two listings whose two
process_offer calls observe different clock readings produces two
records with different timestamp values, so records of one batch do
not all share one timestamp (the batch-grouping in get_summary_stats
assumes they do). -/
theorem batch_timestamps_not_shared :
    (collect_data clock01 [[], []]).map (fun r => r.timestamp) = [dt0.iso, dt1.iso] ∧
    dt0.iso ≠ dt1.iso := by
  decide

/-- Claim C3, counterexample to the claim as stated: num_renting is a
numeric-only field, yet on an offer without the num_renting key the
projected value is the numeric default 0, not null. -/
theorem num_renting_zero_when_absent :
    alookup ([] : Listing) "num_renting" = none ∧
    (process_offer dt0 []).num_renting = JValue.num 0 ∧
    JValue.num 0 ≠ JValue.null := by
  decide

/-- Claim C3 (amended): reliability takes the input reliability2
value, falling back to reliability only when reliability2 is absent;
the boolean flag fields datacenter, verified, static_ip, rented are
false when the input key is absent; numeric-only fields are null when
the input key is absent — except num_renting, which defaults to the
number 0. -/
theorem field_extraction_policy (now : DateTime) (offer : Listing) :
    ((alookup offer "reliability2" = none →
        (process_offer now offer).reliability = dget offer "reliability") ∧
      (∀ v, alookup offer "reliability2" = some v →
        (process_offer now offer).reliability = v)) ∧
    ((alookup offer "datacenter" = none →
        (process_offer now offer).datacenter = JValue.bool false) ∧
      (alookup offer "verified" = none →
        (process_offer now offer).verified = JValue.bool false) ∧
      (alookup offer "static_ip" = none →
        (process_offer now offer).static_ip = JValue.bool false) ∧
      (alookup offer "rented" = none →
        (process_offer now offer).rented = JValue.bool false)) ∧
    ((alookup offer "num_gpus" = none →
        (process_offer now offer).num_gpus = JValue.null) ∧
      (alookup offer "gpu_ram" = none →
        (process_offer now offer).gpu_ram = JValue.null) ∧
      (alookup offer "total_flops" = none →
        (process_offer now offer).total_flops = JValue.null) ∧
      (alookup offer "inet_down" = none →
        (process_offer now offer).inet_down = JValue.null) ∧
      (alookup offer "cpu_cores" = none →
        (process_offer now offer).cpu_cores = JValue.null) ∧
      (alookup offer "dph_total" = none →
        (process_offer now offer).dph_total = JValue.null) ∧
      (alookup offer "dph_base" = none →
        (process_offer now offer).dph_base = JValue.null) ∧
      (alookup offer "storage_cost" = none →
        (process_offer now offer).storage_cost = JValue.null) ∧
      (alookup offer "duration" = none →
        (process_offer now offer).duration = JValue.null) ∧
      (alookup offer "min_bid" = none →
        (process_offer now offer).min_bid = JValue.null) ∧
      (alookup offer "num_renting" = none →
        (process_offer now offer).num_renting = JValue.num 0)) := by
  refine ⟨⟨fun h => ?_, fun v h => ?_⟩,
    ⟨fun h => ?_, fun h => ?_, fun h => ?_, fun h => ?_⟩,
    fun h => ?_, fun h => ?_, fun h => ?_, fun h => ?_, fun h => ?_, fun h => ?_,
    fun h => ?_, fun h => ?_, fun h => ?_, fun h => ?_, fun h => ?_⟩ <;>
  simp [process_offer, dget, dgetD, h]

/-- Claim C3 witness: the amended extraction policy instantiated on
the empty offer, where every key is absent. -/
theorem field_extraction_policy_witness :
    (process_offer dt0 []).reliability = dget ([] : Listing) "reliability" ∧
    (process_offer dt0 []).datacenter = JValue.bool false ∧
    (process_offer dt0 []).verified = JValue.bool false ∧
    (process_offer dt0 []).rented = JValue.bool false ∧
    (process_offer dt0 []).dph_total = JValue.null ∧
    (process_offer dt0 []).num_renting = JValue.num 0 :=
  ⟨(field_extraction_policy dt0 []).1.1 rfl,
    (field_extraction_policy dt0 []).2.1.1 rfl,
    (field_extraction_policy dt0 []).2.1.2.1 rfl,
    (field_extraction_policy dt0 []).2.1.2.2.2 rfl,
    (field_extraction_policy dt0 []).2.2.2.2.2.2.2.1 rfl,
    (field_extraction_policy dt0 []).2.2.2.2.2.2.2.2.2.2.2.2 rfl⟩

/-- Claim C4, counterexample to the claim as stated: a record whose
dph_total is the non-null number 0 is counted in its category (total
is 1) but excluded from the price aggregation — the reported minimum
is none, although a non-null price exists. -/
theorem zero_price_excluded_from_aggregation :
    recZero.dph_total = JValue.num 0 ∧
    JValue.num 0 ≠ JValue.null ∧
    (get_summary_stats [recZero]).map (fun p => p.2.total) = [1] ∧
    (get_summary_stats [recZero]).map (fun p => p.2.price_min) = [none] := by
  decide

/-- Claim C4 (amended): the reported minimum, median, and maximum of a
category are computed over exactly the records of the latest batch in
that category whose dph_total is truthy — non-null and non-zero; a
record whose price is null, or present but 0, is excluded. -/
theorem prices_over_truthy_dph_total (records : List Record) (h : records ≠ [])
    (g : JValue) (st : GpuStats) (hm : (g, st) ∈ get_summary_stats records) :
    categoryPrices records g = (latest_batch records h).filterMap (priceContrib g) ∧
    truthy JValue.null = false ∧
    truthy (JValue.num 0) = false ∧
    (∀ q : Rat, q ≠ 0 → truthy (JValue.num q) = true) ∧
    st.price_min = (listMin (sortRat (categoryPrices records g))).map (pyRound 3) ∧
    st.price_median
      = ((sortRat (categoryPrices records g)).get?
          ((sortRat (categoryPrices records g)).length / 2)).map (pyRound 3) ∧
    st.price_max = (listMax (sortRat (categoryPrices records g))).map (pyRound 3) := by
  obtain ⟨c, rfl⟩ := stats_mem records g st hm
  refine ⟨categoryPrices_filterMap records h g, rfl, by simp [truthy],
    fun q hq => by simp [truthy, hq], ?_, ?_, ?_⟩ <;>
  rw [categoryPrices_eq]
  · exact mkStats_price_min _ _ _
  · exact mkStats_price_median _ _ _
  · exact mkStats_price_max _ _ _

/-- Claim C4 witness: the amended price-aggregation property
instantiated on the one-record batch whose price is the number 0. -/
theorem prices_over_truthy_dph_total_witness :
    categoryPrices [recZero] (JValue.str "A")
      = (latest_batch [recZero] (List.cons_ne_nil recZero [])).filterMap
          (priceContrib (JValue.str "A")) ∧
    truthy JValue.null = false ∧
    truthy (JValue.num 0) = false ∧
    (∀ q : Rat, q ≠ 0 → truthy (JValue.num q) = true) ∧
    (mkStats 0 1 []).price_min
      = (listMin (sortRat (categoryPrices [recZero] (JValue.str "A")))).map (pyRound 3) ∧
    (mkStats 0 1 []).price_median
      = ((sortRat (categoryPrices [recZero] (JValue.str "A"))).get?
          ((sortRat (categoryPrices [recZero] (JValue.str "A"))).length / 2)).map
          (pyRound 3) ∧
    (mkStats 0 1 []).price_max
      = (listMax (sortRat (categoryPrices [recZero] (JValue.str "A")))).map (pyRound 3) :=
  prices_over_truthy_dph_total [recZero] (List.cons_ne_nil recZero [])
    (JValue.str "A") (mkStats 0 1 []) (by decide)

/-- Claim C5: round-trip persistence is lossless — saving any record
sequence and loading the dataset file back returns that sequence. -/
theorem load_after_save_roundtrip (fs : FS) (R : List Record) :
    load_existing_data (save_data R fs) = R := rfl

/-- Claim C6: when the dataset file does not exist, load returns the
empty sequence (load_existing_data is a total function, so a missing
file is never an error). -/
theorem load_missing_file_empty : load_existing_data none = [] := rfl

/-- Claim C7, counterexample to the claim as stated: 204 No Content is
a success status of the HTTP 2xx class, yet the fetcher raises
ApiError on it, because the source accepts exactly status 200. -/
theorem fetch_rejects_204_success_status :
    isHttpSuccess 204 = true ∧
    fetch_vast_offers ⟨204, "No Content", some []⟩
      = Except.error ⟨204, "No Content"⟩ :=
  ⟨rfl, rfl⟩

/-- Claim C7 (amended): the fetcher returns the listing list without
raising exactly when the response status is 200; for every other
status — other 2xx success statuses included — it raises an ApiError
carrying the HTTP status code and the response body, aborting the run
with no retry. -/
theorem fetch_status_dichotomy (resp : HttpResponse) :
    (resp.status_code = 200 →
      fetch_vast_offers resp = Except.ok (resp.offers.getD [])) ∧
    (resp.status_code ≠ 200 →
      fetch_vast_offers resp = Except.error ⟨resp.status_code, resp.text⟩) := by
  constructor <;> intro h <;> simp [fetch_vast_offers, h]

/-- Claim C7 witness: the status dichotomy instantiated on a 200
response with one offer and on a 500 response. -/
theorem fetch_status_dichotomy_witness :
    fetch_vast_offers ⟨200, "", some [offerP 10]⟩ = Except.ok [offerP 10] ∧
    fetch_vast_offers ⟨500, "oops", none⟩ = Except.error ⟨500, "oops"⟩ :=
  ⟨(fetch_status_dichotomy ⟨200, "", some [offerP 10]⟩).1 rfl,
    (fetch_status_dichotomy ⟨500, "oops", none⟩).2 (by decide)⟩

/-- Claim C8: appending a non-empty batch never mutates history — the
saved dataset is the prior records followed by the new batch, its
length is the sum of the two lengths, and its first prior.length
elements are the prior records unchanged and in order. -/
theorem append_preserves_history (prior new_records : List Record)
    (h : new_records ≠ []) :
    run_append (some prior) new_records = some (prior ++ new_records) ∧
    (prior ++ new_records).length = prior.length + new_records.length ∧
    (prior ++ new_records).take prior.length = prior := by
  refine ⟨?_, by simp, by simp⟩
  cases new_records with
  | nil => exact absurd rfl h
  | cons a l => simp [run_append, save_data, load_existing_data, List.isEmpty]

/-- Claim C8 witness: appending a 3-record batch to a 100-record
dataset yields exactly 103 records, the first 100 being the prior
records unchanged. -/
theorem append_preserves_history_witness :
    run_append (some (List.replicate 100 recA)) (List.replicate 3 recA)
      = some (List.replicate 100 recA ++ List.replicate 3 recA) ∧
    (List.replicate 100 recA ++ List.replicate 3 recA).length = 103 ∧
    (List.replicate 100 recA ++ List.replicate 3 recA).take 100
      = List.replicate 100 recA := by
  have h := append_preserves_history (List.replicate 100 recA)
    (List.replicate 3 recA) (by simp)
  exact ⟨h.1, by simp, by simp⟩

/-- Claim C9: the reported rental rate of a category is 0 when its
total count is 0 (the guard, never a division by zero) and is
rented / total * 100 rounded to one decimal when the total is
positive. -/
theorem rental_rate_guarded (records : List Record) (g : JValue) (st : GpuStats)
    (hm : (g, st) ∈ get_summary_stats records) :
    (st.total = 0 → st.rental_rate = 0) ∧
    (0 < st.total →
      st.rental_rate = pyRound 1 ((st.rented : Rat) / (st.total : Rat) * 100)) := by
  obtain ⟨c, rfl⟩ := stats_mem records g st hm
  rw [mkStats_total, mkStats_rented, mkStats_rate]
  constructor
  · intro h0
    simp [h0]
  · intro hpos
    rw [if_pos hpos, divInt_mul_hundred]

/-- Claim C9 witness: the rental-rate property instantiated on a
one-record category with a positive total. -/
theorem rental_rate_guarded_witness :
    (mkStats 0 1 []).rental_rate
      = pyRound 1 (((mkStats 0 1 []).rented : Rat) / ((mkStats 0 1 []).total : Rat) * 100) :=
  (rental_rate_guarded [recA] (JValue.str "A") (mkStats 0 1 []) (by decide)).2
    (by decide)

/-- Claim C10: on the empty dataset the summary computation returns
the empty mapping; the last-record timestamp access that identifies
the latest batch lives only in the non-empty branch of
get_summary_stats, under a proof of non-emptiness, so it is
unreachable here and the computation never fails. -/
theorem summary_of_empty_dataset : get_summary_stats ([] : List Record) = [] := rfl

end VastCollect
